import Mathlib

/-!
Shallow embedding of `simple_log_factory/log_factory.py` (the `simple-log-factory`
package): a convenience factory over a hierarchical named-logger registry.

Modelling decisions:
* A Python handler object is a `Handler` record; the `hid` field models object
  identity (two distinct handler objects never compare equal, which matches
  Python's default identity-based `==` on handler instances).
* The external logger registry is threaded explicitly: `log_factory` receives
  the `Logger` record that `logging.getLogger(log_name)` would return (its
  `parent` field holds the parent logger's handler list, `none` when the logger
  is the root of the hierarchy) and returns the updated registry entry paired
  with the call's outcome.  An error outcome returns the entry untouched,
  mirroring the fact that the `ValueError` is raised before any registry access.
* Python truthiness of an optional string (`if log_file:`) is `strTruthy`:
  `None` and `""` are falsy, every other string is truthy.
* `log_name` may be `None`, a string, or a non-string value (`NameArg`);
  `custom_handlers` may be absent, a single handler, or a list (`CustomHandlers`).
-/

namespace SimpleLogFactory

/-- Exact runtime type of a handler object (deduplication compares these). -/
inductive HandlerType where
  | streamHandler
  | fileHandler
  | timedRotatingFileHandler
  | customType (tag : Nat)
deriving DecidableEq, Repr

/-- A `logging.Formatter`: message format string plus optional `datefmt`. -/
structure Formatter where
  fmt : String
  datefmt : Option String := none
deriving DecidableEq, Repr

/-- A logging level: either an `int` or a level-name string. -/
inductive LogLevel where
  | int (n : Int)
  | str (s : String)
deriving DecidableEq, Repr

/-- Python `str.strip()`: remove leading and trailing whitespace.  Written by
structural recursion over the character list so that it evaluates inside the
kernel (Lean's `String.trim` does not). -/
def pyStrip (s : String) : String :=
  String.mk (((s.data.dropWhile Char.isWhitespace).reverse.dropWhile
    Char.isWhitespace).reverse)

/-- `log_level.strip().upper() if isinstance(log_level, str) else log_level`. -/
def normLevel : LogLevel → LogLevel
  | .int n => .int n
  | .str s => .str (pyStrip s).toUpper

/-- A handler object: identity tag, exact type, and the formatter/level set on
it (`none` until `setFormatter`/`setLevel` is called). -/
structure Handler where
  hid : Nat
  htype : HandlerType
  formatter : Option Formatter := none
  level : Option LogLevel := none
deriving DecidableEq, Repr

/-- The registry entry for one logger name: its name, level, attached handlers,
and the handler list of its parent logger (`none` when no parent exists, i.e.
the root logger). -/
structure Logger where
  name : String
  level : Option LogLevel := none
  handlers : List Handler := []
  parent : Option (List Handler) := none
deriving DecidableEq, Repr

/-- `logger.addHandler(h)`: append `h` to the logger's handler list. -/
def Logger.addHandler (logger : Logger) (h : Handler) : Logger :=
  { logger with handlers := logger.handlers ++ [h] }

/-- Python truthiness of an optional string: `None` and `""` are falsy. -/
def strTruthy : Option String → Bool
  | some s => !s.isEmpty
  | none => false

/-- `_get_handlers(to_console, log_file, rotate_file_by_day)`: console stream
handler first when requested, then a file handler when `log_file` is truthy
(a midnight-rotating one when `rotate_file_by_day`).  `fresh` supplies the
identity tags of the freshly created handler objects. -/
def _get_handlers (to_console : Bool) (log_file : Option String)
    (rotate_file_by_day : Bool) (fresh : Nat) : List Handler :=
  let handlers : List Handler := []
  let handlers :=
    if to_console then handlers ++ [{ hid := fresh, htype := .streamHandler }]
    else handlers
  if strTruthy log_file then
    if rotate_file_by_day then
      handlers ++ [{ hid := fresh + 1, htype := .timedRotatingFileHandler }]
    else
      handlers ++ [{ hid := fresh + 1, htype := .fileHandler }]
  else handlers

/-- `_check_unique_handler_types(logger, unique_handler_types)`: clear the
logger's handlers when deduplication is on, a parent exists, and the handler
list equals the parent's. -/
def _check_unique_handler_types (logger : Logger)
    (unique_handler_types : Bool) : Logger :=
  match logger.parent with
  | some parentHandlers =>
      if unique_handler_types && (logger.handlers == parentHandlers) then
        { logger with handlers := [] }
      else logger
  | none => logger

/-- `_attach_handlers(logger, handlers, log_level, formatter,
unique_handler_types)`: the set of already-present handler types is computed
once from a copy of the logger's handlers extended by the parent's (when a
parent exists); each new handler whose type is in that set is skipped when
deduplication is on, every other one gets the formatter and level and is
attached. -/
def _attach_handlers (logger : Logger) (handlers : List Handler)
    (log_level : LogLevel) (formatter : Formatter)
    (unique_handler_types : Bool) : Logger :=
  let handler_list := logger.handlers ++ logger.parent.getD []
  let handler_types := handler_list.map (fun h => h.htype)
  handlers.foldl
    (fun lg h =>
      if unique_handler_types && handler_types.contains h.htype then lg
      else lg.addHandler { h with formatter := some formatter, level := some log_level })
    logger

/-- The `log_name` argument: `None`, a string, or some non-string value. -/
inductive NameArg where
  | pynone
  | pystr (s : String)
  | nonstring
deriving DecidableEq, Repr

/-- The `custom_handlers` argument: `None` (absent), a single handler, or a
list of handlers. -/
inductive CustomHandlers where
  | absent
  | one (h : Handler)
  | many (hs : List Handler)
deriving DecidableEq, Repr

/-- Python truthiness of the `custom_handlers` argument (`if custom_handlers:`):
`None` and the empty list are falsy. -/
def CustomHandlers.truthy : CustomHandlers → Bool
  | .absent => false
  | .one _ => true
  | .many hs => !hs.isEmpty

/-- The keyword-argument surface of `log_factory`, with its default values. -/
structure Config where
  log_name : NameArg
  log_file : Option String := none
  rotate_file_by_day : Bool := true
  log_level : LogLevel := .int 10
  to_console : Bool := true
  custom_handlers : CustomHandlers := .absent
  log_format : String := "%(asctime)s - %(name)s - %(levelname)s - %(message)s"
  log_time_format : Option String := none
  unique_handler_types : Bool := false
deriving Repr

/-- The validation test of `log_factory`
(`isinstance(log_name, str) and log_name.strip()` truthy): `log_name` passes
iff it is a string that is non-empty after stripping whitespace. -/
def validLogName : NameArg → Bool
  | .pystr s => !(pyStrip s).data.isEmpty
  | _ => false

/-- Lines 159-164 of `log_factory`: formatter selection.  Fixed time-only
`datefmt` when a (truthy) file is set and rotation is on; else the caller's
(truthy) time format; else no `datefmt`. -/
def selectFormatter (cfg : Config) : Formatter :=
  if cfg.rotate_file_by_day && strTruthy cfg.log_file then
    { fmt := cfg.log_format, datefmt := some "%H:%M:%S" }
  else if strTruthy cfg.log_time_format then
    { fmt := cfg.log_format, datefmt := cfg.log_time_format }
  else
    { fmt := cfg.log_format, datefmt := none }

/-- Lines 172-176 of `log_factory`: when `custom_handlers` is truthy, extend
with it when it is a list, otherwise append the single handler. -/
def addCustomHandlers (handlers : List Handler)
    (custom_handlers : CustomHandlers) : List Handler :=
  if custom_handlers.truthy then
    match custom_handlers with
    | .many hs => handlers ++ hs
    | .one h => handlers ++ [h]
    | .absent => handlers
  else handlers

/-- `log_factory(...)`: validate the name, select the formatter, build the
built-in handlers, append custom handlers, normalize and set the level,
attach, run the collapse step, and return the logger.  `st` is the registry
entry `logging.getLogger(log_name)` yields, `fresh` the identity base for the
newly created handler objects.  The first component of the result is the
registry entry after the call (unchanged on error). -/
def log_factory (cfg : Config) (st : Logger) (fresh : Nat) :
    Logger × Except String Logger :=
  if !validLogName cfg.log_name then
    (st, .error "log_name must be a non-empty string.")
  else
    let formatter := selectFormatter cfg
    let handlers := _get_handlers cfg.to_console cfg.log_file cfg.rotate_file_by_day fresh
    let handlers := addCustomHandlers handlers cfg.custom_handlers
    let log_level := normLevel cfg.log_level
    let logger := { st with level := some log_level }
    let logger := _attach_handlers logger handlers log_level formatter cfg.unique_handler_types
    let final := _check_unique_handler_types logger cfg.unique_handler_types
    (final, .ok final)

/-- The severity a `LogContext` callable logs at (one per callable). -/
inductive Severity where
  | exception
  | error
  | warning
  | info
  | debug
deriving DecidableEq, Repr

/-- The log record a context callable emits: owning logger's name, severity,
message, and the `extra` mapping passed to the logging call. -/
structure LogRecord where
  loggerName : String
  severity : Severity
  msg : String
  extra : List (String × String)
deriving DecidableEq, Repr

/-- `LogContext`: five pre-bound logging callables, one per severity.  Each is
modelled as the function from the message to the record it emits. -/
structure LogContext where
  exception : String → LogRecord
  error : String → LogRecord
  warning : String → LogRecord
  info : String → LogRecord
  debug : String → LogRecord

/-- `LogContextGenerators`: owns the single logger built in `__init__`. -/
structure LogContextGenerators where
  logger : Logger

/-- `LogContextGenerators.__init__(**kwargs)`: build the owned logger via
`log_factory`. -/
def LogContextGenerators.build (cfg : Config) (st : Logger) (fresh : Nat) :
    Except String LogContextGenerators :=
  (log_factory cfg st fresh).2.map (fun l => { logger := l })

/-- `get_logger_for_context(**kwargs)`: a frozen `LogContext` whose five
callables log the message on the owned logger at the corresponding severity
with `kwargs` as the `extra` mapping. -/
def LogContextGenerators.get_logger_for_context (gen : LogContextGenerators)
    (kwargs : List (String × String)) : LogContext :=
  { exception := fun msg => { loggerName := gen.logger.name, severity := .exception, msg := msg, extra := kwargs }
  , error := fun msg => { loggerName := gen.logger.name, severity := .error, msg := msg, extra := kwargs }
  , warning := fun msg => { loggerName := gen.logger.name, severity := .warning, msg := msg, extra := kwargs }
  , info := fun msg => { loggerName := gen.logger.name, severity := .info, msg := msg, extra := kwargs }
  , debug := fun msg => { loggerName := gen.logger.name, severity := .debug, msg := msg, extra := kwargs } }

/-! Derived notions used to state the theorems. -/

/-- The handler types `_attach_handlers` computes up front: those of the
logger's own handlers followed by its parent's. -/
def inheritedTypes (logger : Logger) : List HandlerType :=
  (logger.handlers ++ logger.parent.getD []).map (fun h => h.htype)

/-- Whether `_attach_handlers` skips a new handler: deduplication is on and
the handler's exact type is already present. -/
def skipsHandler (logger : Logger) (unique_handler_types : Bool)
    (h : Handler) : Bool :=
  unique_handler_types && (inheritedTypes logger).contains h.htype

/-- A handler after `setFormatter`/`setLevel`. -/
def withFmtLevel (formatter : Formatter) (log_level : LogLevel)
    (h : Handler) : Handler :=
  { h with formatter := some formatter, level := some log_level }

/-- The sublist of new handlers `_attach_handlers` actually attaches, each
carrying the formatter and level. -/
def newlyAttached (logger : Logger) (handlers : List Handler)
    (log_level : LogLevel) (formatter : Formatter)
    (unique_handler_types : Bool) : List Handler :=
  (handlers.filter (fun h => !skipsHandler logger unique_handler_types h)).map
    (withFmtLevel formatter log_level)

/-- The `custom_handlers` argument as the list of handlers it denotes. -/
def customList : CustomHandlers → List Handler
  | .absent => []
  | .one h => [h]
  | .many hs => hs

/-- The list of handlers the attach fold appends, for a fixed list of
already-present types (proof helper generalizing `newlyAttached`). -/
def attachResult (types : List HandlerType) (u : Bool) (lvl : LogLevel)
    (fmt : Formatter) (handlers : List Handler) : List Handler :=
  (handlers.filter fun h => !(u && types.contains h.htype)).map
    fun h => { h with formatter := some fmt, level := some lvl }

/-! Helper lemmas shared by the claim theorems. -/

theorem foldl_attach_eq (types : List HandlerType) (u : Bool) (lvl : LogLevel)
    (fmt : Formatter) (handlers : List Handler) :
    ∀ acc : Logger,
      handlers.foldl
        (fun lg h =>
          if u && types.contains h.htype then lg
          else lg.addHandler { h with formatter := some fmt, level := some lvl })
        acc =
      { acc with handlers := acc.handlers ++ attachResult types u lvl fmt handlers } := by
  induction handlers with
  | nil => intro acc; simp [attachResult]
  | cons h hs ih =>
      intro acc
      obtain ⟨nm, lv, hls, pr⟩ := acc
      simp only [List.foldl_cons]
      cases hcb : u && types.contains h.htype with
      | true =>
          rw [if_pos rfl, ih]
          simp only [attachResult, List.filter_cons, hcb, Bool.not_true]
          simp
      | false =>
          rw [if_neg (by simp), ih]
          simp only [attachResult, List.filter_cons, hcb, Bool.not_false,
            Logger.addHandler, List.map_cons]
          simp [List.append_assoc]

theorem attach_handlers_eq (logger : Logger) (handlers : List Handler)
    (lvl : LogLevel) (fmt : Formatter) (u : Bool) :
    _attach_handlers logger handlers lvl fmt u =
      { logger with handlers :=
          logger.handlers ++ newlyAttached logger handlers lvl fmt u } := by
  simp only [_attach_handlers]
  rw [foldl_attach_eq]
  rfl

theorem attach_name (logger : Logger) (handlers : List Handler) (lvl : LogLevel)
    (fmt : Formatter) (u : Bool) :
    (_attach_handlers logger handlers lvl fmt u).name = logger.name := by
  rw [attach_handlers_eq]

theorem check_unique_spec (logger : Logger) (u : Bool) :
    _check_unique_handler_types logger u = logger ∨
      (∃ ph, logger.parent = some ph ∧ logger.handlers = ph ∧ u = true ∧
        _check_unique_handler_types logger u = { logger with handlers := [] }) := by
  cases hp : logger.parent with
  | none => left; simp [_check_unique_handler_types, hp]
  | some ph =>
      cases hu : u with
      | false => left; simp [_check_unique_handler_types, hp]
      | true =>
          by_cases he : logger.handlers = ph
          · right
            exact ⟨ph, rfl, he, rfl, by simp [_check_unique_handler_types, hp, he]⟩
          · left
            simp [_check_unique_handler_types, hp, he]

theorem check_unique_name (logger : Logger) (u : Bool) :
    (_check_unique_handler_types logger u).name = logger.name := by
  rcases check_unique_spec logger u with h | ⟨_, _, _, _, h⟩ <;> rw [h]

theorem check_unique_false (logger : Logger) :
    _check_unique_handler_types logger false = logger := by
  rcases check_unique_spec logger false with h | ⟨_, _, _, hu, _⟩
  · exact h
  · exact absurd hu (by simp)

theorem pyStrip_data_nil_iff (s : String) :
    (pyStrip s).data = [] ↔ pyStrip s = "" := by
  constructor
  · intro h
    apply String.ext
    rw [h]
  · intro h
    rw [h]

theorem pyStrip_empty_iff (s : String) :
    (pyStrip s).data.isEmpty = true ↔ pyStrip s = "" := by
  rw [List.isEmpty_iff]
  exact pyStrip_data_nil_iff s

theorem validLogName_false_iff (n : NameArg) :
    validLogName n = false ↔
      (n = NameArg.pynone ∨ n = NameArg.nonstring ∨
        ∃ s, n = NameArg.pystr s ∧ pyStrip s = "") := by
  cases n with
  | pynone => simp [validLogName]
  | pystr s => simp [validLogName, pyStrip_data_nil_iff]
  | nonstring => simp [validLogName]

theorem log_factory_error_eq (cfg : Config) (st : Logger) (fresh : Nat)
    (hv : validLogName cfg.log_name = false) :
    log_factory cfg st fresh =
      (st, Except.error "log_name must be a non-empty string.") := by
  unfold log_factory
  rw [if_pos (by simp [hv])]

theorem log_factory_ok_pair (cfg : Config) (st : Logger) (fresh : Nat)
    (hv : validLogName cfg.log_name = true) :
    log_factory cfg st fresh =
      (_check_unique_handler_types
          (_attach_handlers { st with level := some (normLevel cfg.log_level) }
            (addCustomHandlers
              (_get_handlers cfg.to_console cfg.log_file cfg.rotate_file_by_day fresh)
              cfg.custom_handlers)
            (normLevel cfg.log_level) (selectFormatter cfg) cfg.unique_handler_types)
          cfg.unique_handler_types,
        Except.ok
          (_check_unique_handler_types
            (_attach_handlers { st with level := some (normLevel cfg.log_level) }
              (addCustomHandlers
                (_get_handlers cfg.to_console cfg.log_file cfg.rotate_file_by_day fresh)
                cfg.custom_handlers)
              (normLevel cfg.log_level) (selectFormatter cfg) cfg.unique_handler_types)
            cfg.unique_handler_types)) := by
  unfold log_factory
  rw [if_neg (by simp [hv])]

theorem log_factory_fst (cfg : Config) (st : Logger) (fresh : Nat)
    (hv : validLogName cfg.log_name = true) :
    (log_factory cfg st fresh).1 =
      _check_unique_handler_types
        (_attach_handlers { st with level := some (normLevel cfg.log_level) }
          (addCustomHandlers
            (_get_handlers cfg.to_console cfg.log_file cfg.rotate_file_by_day fresh)
            cfg.custom_handlers)
          (normLevel cfg.log_level) (selectFormatter cfg) cfg.unique_handler_types)
        cfg.unique_handler_types := by
  rw [log_factory_ok_pair cfg st fresh hv]

theorem addCustomHandlers_eq_append (hs : List Handler) (cu : CustomHandlers) :
    addCustomHandlers hs cu = hs ++ customList cu := by
  cases cu with
  | absent => simp [addCustomHandlers, CustomHandlers.truthy, customList]
  | one h => simp [addCustomHandlers, CustomHandlers.truthy, customList]
  | many hs2 => cases hs2 <;> simp [addCustomHandlers, CustomHandlers.truthy, customList]

theorem htype_comp_withFmtLevel (fmt : Formatter) (lvl : LogLevel) :
    Handler.htype ∘ withFmtLevel fmt lvl = Handler.htype := by
  funext h
  rfl

theorem skipsHandler_false_not_mem {logger : Logger} {u : Bool} {h : Handler}
    (hs : skipsHandler logger u h = false) (hu : u = true) :
    h.htype ∉ inheritedTypes logger := by
  intro hmem
  have hc : (inheritedTypes logger).contains h.htype = true :=
    List.elem_eq_true_of_mem hmem
  unfold skipsHandler at hs
  rw [hu, hc] at hs
  simp at hs

/-! Claim theorems. -/

/-- C1: `log_factory` fails (with the `ValueError` message
"log_name must be a non-empty string.") exactly when `log_name` is `None`, a
non-string, or a string that is blank after trimming; on failure the registry
entry is returned untouched (the error precedes every handler construction and
logger mutation); for every non-blank string name the call succeeds and the
returned logger carries that name. -/
theorem C1_log_name_validation (cfg : Config) (st : Logger) (fresh : Nat) :
    ((∃ e, (log_factory cfg st fresh).2 = Except.error e) ↔
      (cfg.log_name = NameArg.pynone ∨ cfg.log_name = NameArg.nonstring ∨
        ∃ s, cfg.log_name = NameArg.pystr s ∧ pyStrip s = ""))
    ∧ (validLogName cfg.log_name = false →
        log_factory cfg st fresh =
          (st, Except.error "log_name must be a non-empty string."))
    ∧ (∀ s, cfg.log_name = NameArg.pystr s → pyStrip s ≠ "" → st.name = s →
        ∃ l, (log_factory cfg st fresh).2 = Except.ok l ∧ l.name = s) := by
  refine ⟨⟨?_, ?_⟩, ?_, ?_⟩
  · rintro ⟨e, he⟩
    rw [← validLogName_false_iff]
    by_contra hne
    have hv : validLogName cfg.log_name = true := by
      cases h : validLogName cfg.log_name
      · exact absurd h hne
      · rfl
    rw [log_factory_ok_pair cfg st fresh hv] at he
    simp at he
  · intro hbad
    have hv : validLogName cfg.log_name = false := (validLogName_false_iff _).mpr hbad
    exact ⟨_, by rw [log_factory_error_eq cfg st fresh hv]⟩
  · intro hv
    exact log_factory_error_eq cfg st fresh hv
  · intro s hs hblank hstname
    have hv : validLogName cfg.log_name = true := by
      rw [hs]
      show (!(pyStrip s).data.isEmpty) = true
      cases h : (pyStrip s).data.isEmpty
      · rfl
      · exact absurd ((pyStrip_empty_iff s).mp h) hblank
    refine ⟨(log_factory cfg st fresh).1, ?_, ?_⟩
    · rw [log_factory_ok_pair cfg st fresh hv]
    · rw [log_factory_fst cfg st fresh hv, check_unique_name, attach_name]
      exact hstname

/-- Witness for C1: the name "app" is accepted and the returned logger is
named "app". -/
theorem C1_witness :
    ∃ l, (log_factory { log_name := NameArg.pystr "app" } { name := "app" } 0).2 =
        Except.ok l ∧ l.name = "app" :=
  (C1_log_name_validation { log_name := NameArg.pystr "app" } { name := "app" } 0).2.2
    "app" rfl (by decide) rfl

/-- C2: formatter precedence.  With a (truthy) log file and rotation on, the
time format is the fixed "%H:%M:%S" whatever the caller supplied; otherwise a
truthy caller-supplied time format wins; otherwise no `datefmt` is set.  When
rotation is requested without a file, the fixed time-only rule does not apply
and rules 2/3 decide. -/
theorem C2_formatter_precedence (cfg : Config) :
    (cfg.rotate_file_by_day = true → strTruthy cfg.log_file = true →
        selectFormatter cfg = { fmt := cfg.log_format, datefmt := some "%H:%M:%S" })
    ∧ (¬(cfg.rotate_file_by_day = true ∧ strTruthy cfg.log_file = true) →
        strTruthy cfg.log_time_format = true →
        selectFormatter cfg = { fmt := cfg.log_format, datefmt := cfg.log_time_format })
    ∧ (¬(cfg.rotate_file_by_day = true ∧ strTruthy cfg.log_file = true) →
        strTruthy cfg.log_time_format = false →
        selectFormatter cfg = { fmt := cfg.log_format, datefmt := none })
    ∧ (cfg.rotate_file_by_day = true → strTruthy cfg.log_file = false →
        (selectFormatter cfg).datefmt =
          if strTruthy cfg.log_time_format then cfg.log_time_format else none) := by
  refine ⟨?_, ?_, ?_, ?_⟩
  · intro h1 h2
    simp [selectFormatter, h1, h2]
  · intro h1 h2
    have hb : (cfg.rotate_file_by_day && strTruthy cfg.log_file) = false := by
      cases hr : cfg.rotate_file_by_day
      · rfl
      · cases hf : strTruthy cfg.log_file
        · rfl
        · exact absurd ⟨hr, hf⟩ h1
    simp [selectFormatter, hb, h2]
  · intro h1 h2
    have hb : (cfg.rotate_file_by_day && strTruthy cfg.log_file) = false := by
      cases hr : cfg.rotate_file_by_day
      · rfl
      · cases hf : strTruthy cfg.log_file
        · rfl
        · exact absurd ⟨hr, hf⟩ h1
    simp [selectFormatter, hb, h2]
  · intro h1 h2
    cases hf : strTruthy cfg.log_time_format <;>
      simp [selectFormatter, h1, h2, hf]

/-- Witness for C2: file plus rotation forces the fixed time-only format. -/
theorem C2_witness :
    selectFormatter
        { log_name := NameArg.pystr "app", log_file := some "app.log",
          log_time_format := some "%Y" } =
      { fmt := "%(asctime)s - %(name)s - %(levelname)s - %(message)s",
        datefmt := some "%H:%M:%S" } :=
  (C2_formatter_precedence _).1 rfl rfl

/-- C4: the collapse step clears the target's handler list exactly when
deduplication is on, a parent exists, and the handler list equals the parent's
as a sequence; in every other case (a parentless root logger included) it
returns the logger unchanged. -/
theorem C4_collapse_exact (logger : Logger) (u : Bool) :
    ((u = true ∧ ∃ ph, logger.parent = some ph ∧ logger.handlers = ph) →
        _check_unique_handler_types logger u = { logger with handlers := [] })
    ∧ (¬(u = true ∧ ∃ ph, logger.parent = some ph ∧ logger.handlers = ph) →
        _check_unique_handler_types logger u = logger) := by
  constructor
  · rintro ⟨hu, ph, hp, he⟩
    simp [_check_unique_handler_types, hp, hu, he]
  · intro hn
    rcases check_unique_spec logger u with h | ⟨ph, hp, he, hu, _⟩
    · exact h
    · exact absurd ⟨hu, ph, hp, he⟩ hn

/-- Witness for C4: with dedup on and the handler list equal to the parent's,
the list is cleared. -/
theorem C4_witness :
    _check_unique_handler_types
        ⟨"a", none, [⟨0, HandlerType.streamHandler, none, none⟩],
          some [⟨0, HandlerType.streamHandler, none, none⟩]⟩ true =
      ⟨"a", none, [], some [⟨0, HandlerType.streamHandler, none, none⟩]⟩ :=
  (C4_collapse_exact _ true).1
    ⟨rfl, [⟨0, HandlerType.streamHandler, none, none⟩], rfl, rfl⟩

/-- C5: each of a `LogContext`'s five callables emits the given message at its
severity on the generator's owned logger with the captured mapping as extras,
on every call; in particular a context bound to `request_id="abc-123"` logs
"processing" at info with that extra attached. -/
theorem C5_log_context (gen : LogContextGenerators)
    (kwargs : List (String × String)) (msg : String) :
    ((gen.get_logger_for_context kwargs).exception msg =
        { loggerName := gen.logger.name, severity := Severity.exception, msg := msg, extra := kwargs })
    ∧ ((gen.get_logger_for_context kwargs).error msg =
        { loggerName := gen.logger.name, severity := Severity.error, msg := msg, extra := kwargs })
    ∧ ((gen.get_logger_for_context kwargs).warning msg =
        { loggerName := gen.logger.name, severity := Severity.warning, msg := msg, extra := kwargs })
    ∧ ((gen.get_logger_for_context kwargs).info msg =
        { loggerName := gen.logger.name, severity := Severity.info, msg := msg, extra := kwargs })
    ∧ ((gen.get_logger_for_context kwargs).debug msg =
        { loggerName := gen.logger.name, severity := Severity.debug, msg := msg, extra := kwargs })
    ∧ ((gen.get_logger_for_context [("request_id", "abc-123")]).info "processing" =
        { loggerName := gen.logger.name, severity := Severity.info, msg := "processing",
          extra := [("request_id", "abc-123")] }) :=
  ⟨rfl, rfl, rfl, rfl, rfl, rfl⟩

/-- C6: the handler builder yields the console stream handler first when
requested, then the file handler when the path is truthy (rotating variant
when rotation is on), and nothing when neither output is requested. -/
theorem C6_handler_builder (to_console : Bool) (log_file : Option String)
    (rotate_file_by_day : Bool) (fresh : Nat) :
    ((_get_handlers to_console log_file rotate_file_by_day fresh).map Handler.htype =
        (if to_console then [HandlerType.streamHandler] else []) ++
          (if strTruthy log_file then
            [if rotate_file_by_day then HandlerType.timedRotatingFileHandler
             else HandlerType.fileHandler]
           else []))
    ∧ (to_console = false → strTruthy log_file = false →
        _get_handlers to_console log_file rotate_file_by_day fresh = []) := by
  constructor
  · cases to_console <;> cases hf : strTruthy log_file <;>
      cases rotate_file_by_day <;> simp [_get_handlers, hf]
  · intro h1 h2
    subst h1
    simp [_get_handlers, h2]

/-- Witness for C6: nothing requested, nothing built. -/
theorem C6_witness : _get_handlers false none true 0 = [] :=
  (C6_handler_builder false none true 0).2 rfl rfl

/-- C7: attaching reads but never disturbs existing state: the resulting
handler list is exactly the old list extended by the newly attached handlers,
and the parent's handler list (as well as the logger's name and level) is
unchanged. -/
theorem C7_attach_frame (logger : Logger) (handlers : List Handler)
    (lvl : LogLevel) (fmt : Formatter) (u : Bool) :
    ((_attach_handlers logger handlers lvl fmt u).handlers =
        logger.handlers ++ newlyAttached logger handlers lvl fmt u)
    ∧ ((_attach_handlers logger handlers lvl fmt u).parent = logger.parent)
    ∧ ((_attach_handlers logger handlers lvl fmt u).name = logger.name)
    ∧ ((_attach_handlers logger handlers lvl fmt u).level = logger.level) := by
  rw [attach_handlers_eq]
  exact ⟨rfl, rfl, rfl, rfl⟩

/-- C3 as stated is false on the code: with deduplication enabled, a console
handler plus a same-type custom handler supplied within one call are both
attached, because the set of present types is computed once before the loop
and never updated — the resulting logger holds two stream handlers. -/
theorem C3_counterexample :
    1 < (((log_factory
          { log_name := NameArg.pystr "svc", unique_handler_types := true,
            custom_handlers := CustomHandlers.one ⟨7, HandlerType.streamHandler, none, none⟩ }
          ⟨"svc", none, [], none⟩ 0).1.handlers.filter
        (fun h => h.htype == HandlerType.streamHandler)).length) := by
  decide

/-- C3 amended: with deduplication enabled a new handler is skipped precisely
when its exact type already occurs among the logger's or its parent's
pre-existing handlers (the present-type set is computed once, before the
loop); consequently, when the pre-existing handler types are pairwise
distinct and the new handlers supplied in one call also have pairwise
distinct types, every handler type occurs at most once on the logger
afterwards.  Several same-type new handlers in a single call are all attached
when their type is not already present. -/
theorem C3_dedup_types (logger : Logger) (handlers : List Handler)
    (lvl : LogLevel) (fmt : Formatter)
    (hold : (logger.handlers.map Handler.htype).Nodup)
    (hnew : (handlers.map Handler.htype).Nodup) :
    ((_attach_handlers logger handlers lvl fmt true).handlers =
        logger.handlers ++ newlyAttached logger handlers lvl fmt true)
    ∧ ((_attach_handlers logger handlers lvl fmt true).handlers.map Handler.htype).Nodup := by
  have heq : (_attach_handlers logger handlers lvl fmt true).handlers =
      logger.handlers ++ newlyAttached logger handlers lvl fmt true := by
    rw [attach_handlers_eq]
  refine ⟨heq, ?_⟩
  rw [heq, List.map_append]
  have hmap : (newlyAttached logger handlers lvl fmt true).map Handler.htype =
      (handlers.filter (fun h => !skipsHandler logger true h)).map Handler.htype := by
    simp only [newlyAttached, List.map_map, htype_comp_withFmtLevel]
  rw [List.nodup_append, hmap]
  refine ⟨hold, ?_, ?_⟩
  · exact List.Nodup.sublist (List.Sublist.map Handler.htype (List.filter_sublist handlers)) hnew
  · intro t ht1 ht2
    obtain ⟨h, hhf, rfl⟩ := List.mem_map.mp ht2
    obtain ⟨hhmem, hp⟩ := List.mem_filter.mp hhf
    have hskip : skipsHandler logger true h = false := by
      cases hsk : skipsHandler logger true h
      · rfl
      · rw [hsk] at hp
        exact absurd hp (by simp)
    apply skipsHandler_false_not_mem hskip rfl
    unfold inheritedTypes
    rw [List.map_append]
    exact List.mem_append_left _ ht1

/-- Witness for C3's amended statement: attaching one stream handler to an
empty logger with dedup on leaves pairwise distinct handler types. -/
theorem C3_witness :
    ((_attach_handlers ⟨"a", none, [], none⟩ [⟨0, HandlerType.streamHandler, none, none⟩]
        (LogLevel.int 10) ⟨"f", none⟩ true).handlers.map Handler.htype).Nodup :=
  (C3_dedup_types ⟨"a", none, [], none⟩ [⟨0, HandlerType.streamHandler, none, none⟩]
      (LogLevel.int 10) ⟨"f", none⟩ (by simp) (by simp)).2

/-- C8: `custom_handlers` accepts a single handler or a list of handlers; the
custom handlers are appended after the built-in ones, and every custom
handler the deduplication rule does not skip is attached — carrying the
call's formatter and level — to the logger returned by the call. -/
theorem C8_custom_handlers (cfg : Config) (st : Logger) (fresh : Nat)
    (hv : validLogName cfg.log_name = true) :
    (∀ hs : List Handler,
        addCustomHandlers hs cfg.custom_handlers = hs ++ customList cfg.custom_handlers)
    ∧ (∀ l, (log_factory cfg st fresh).2 = Except.ok l →
        ∀ c ∈ customList cfg.custom_handlers,
          skipsHandler st cfg.unique_handler_types c = false →
            withFmtLevel (selectFormatter cfg) (normLevel cfg.log_level) c ∈ l.handlers) := by
  constructor
  · intro hs
    exact addCustomHandlers_eq_append hs cfg.custom_handlers
  · intro l hl c hc hskip
    rw [log_factory_ok_pair cfg st fresh hv] at hl
    simp only [Except.ok.injEq] at hl
    subst hl
    have hskip1 : skipsHandler { st with level := some (normLevel cfg.log_level) }
        cfg.unique_handler_types c = false := hskip
    have hcH : c ∈ addCustomHandlers
        (_get_handlers cfg.to_console cfg.log_file cfg.rotate_file_by_day fresh)
        cfg.custom_handlers := by
      rw [addCustomHandlers_eq_append]
      exact List.mem_append_right _ hc
    have hcNew : withFmtLevel (selectFormatter cfg) (normLevel cfg.log_level) c ∈
        newlyAttached { st with level := some (normLevel cfg.log_level) }
          (addCustomHandlers
            (_get_handlers cfg.to_console cfg.log_file cfg.rotate_file_by_day fresh)
            cfg.custom_handlers)
          (normLevel cfg.log_level) (selectFormatter cfg) cfg.unique_handler_types := by
      simp only [newlyAttached]
      refine List.mem_map_of_mem _ (List.mem_filter.mpr ⟨hcH, ?_⟩)
      rw [hskip1]
      rfl
    have hmem2 : withFmtLevel (selectFormatter cfg) (normLevel cfg.log_level) c ∈
        (_attach_handlers { st with level := some (normLevel cfg.log_level) }
          (addCustomHandlers
            (_get_handlers cfg.to_console cfg.log_file cfg.rotate_file_by_day fresh)
            cfg.custom_handlers)
          (normLevel cfg.log_level) (selectFormatter cfg) cfg.unique_handler_types).handlers := by
      rw [attach_handlers_eq]
      exact List.mem_append_right _ hcNew
    rcases check_unique_spec
        (_attach_handlers { st with level := some (normLevel cfg.log_level) }
          (addCustomHandlers
            (_get_handlers cfg.to_console cfg.log_file cfg.rotate_file_by_day fresh)
            cfg.custom_handlers)
          (normLevel cfg.log_level) (selectFormatter cfg) cfg.unique_handler_types)
        cfg.unique_handler_types with hF | ⟨ph, hp2, he2, hu2, hF⟩
    · rw [hF]
      exact hmem2
    · exfalso
      rw [he2] at hmem2
      have hpar : (_attach_handlers { st with level := some (normLevel cfg.log_level) }
          (addCustomHandlers
            (_get_handlers cfg.to_console cfg.log_file cfg.rotate_file_by_day fresh)
            cfg.custom_handlers)
          (normLevel cfg.log_level) (selectFormatter cfg) cfg.unique_handler_types).parent =
          st.parent := by
        rw [attach_handlers_eq]
      rw [hpar] at hp2
      apply skipsHandler_false_not_mem hskip hu2
      unfold inheritedTypes
      rw [hp2]
      have hgo : (withFmtLevel (selectFormatter cfg) (normLevel cfg.log_level) c).htype ∈
          (st.handlers ++ (some ph).getD []).map Handler.htype :=
        List.mem_map_of_mem Handler.htype (List.mem_append_right st.handlers hmem2)
      exact hgo

/-- Witness for C8: a custom stream handler supplied as a single value is
attached, with the call's formatter and level, to the returned logger. -/
theorem C8_witness :
    withFmtLevel
        (selectFormatter
          { log_name := NameArg.pystr "w8", to_console := false,
            custom_handlers := CustomHandlers.one ⟨5, HandlerType.streamHandler, none, none⟩ })
        (normLevel (LogLevel.int 10)) ⟨5, HandlerType.streamHandler, none, none⟩ ∈
      ((log_factory
          { log_name := NameArg.pystr "w8", to_console := false,
            custom_handlers := CustomHandlers.one ⟨5, HandlerType.streamHandler, none, none⟩ }
          ⟨"w8", none, [], none⟩ 0).1).handlers :=
  (C8_custom_handlers
      { log_name := NameArg.pystr "w8", to_console := false,
        custom_handlers := CustomHandlers.one ⟨5, HandlerType.streamHandler, none, none⟩ }
      ⟨"w8", none, [], none⟩ 0 (by decide)).2
    (log_factory
        { log_name := NameArg.pystr "w8", to_console := false,
          custom_handlers := CustomHandlers.one ⟨5, HandlerType.streamHandler, none, none⟩ }
        ⟨"w8", none, [], none⟩ 0).1
    (by rfl) ⟨5, HandlerType.streamHandler, none, none⟩ (by decide) (by decide)

/-- C9: every handler on the logger a call returns either predates the call
or carries the single formatter built once for that call. -/
theorem C9_one_formatter (cfg : Config) (st : Logger) (fresh : Nat) :
    ∀ h ∈ (log_factory cfg st fresh).1.handlers,
      h ∈ st.handlers ∨ h.formatter = some (selectFormatter cfg) := by
  intro h hmem
  cases hv : validLogName cfg.log_name with
  | false =>
      rw [log_factory_error_eq cfg st fresh hv] at hmem
      exact Or.inl hmem
  | true =>
      rw [log_factory_fst cfg st fresh hv] at hmem
      rcases check_unique_spec
          (_attach_handlers { st with level := some (normLevel cfg.log_level) }
            (addCustomHandlers
              (_get_handlers cfg.to_console cfg.log_file cfg.rotate_file_by_day fresh)
              cfg.custom_handlers)
            (normLevel cfg.log_level) (selectFormatter cfg) cfg.unique_handler_types)
          cfg.unique_handler_types with hF | ⟨ph, hp2, he2, hu2, hF⟩ <;>
        rw [hF] at hmem
      · rw [attach_handlers_eq] at hmem
        have hmem2 : h ∈ st.handlers ++
            newlyAttached { st with level := some (normLevel cfg.log_level) }
              (addCustomHandlers
                (_get_handlers cfg.to_console cfg.log_file cfg.rotate_file_by_day fresh)
                cfg.custom_handlers)
              (normLevel cfg.log_level) (selectFormatter cfg) cfg.unique_handler_types := hmem
        rcases List.mem_append.mp hmem2 with hl | hr
        · exact Or.inl hl
        · right
          simp only [newlyAttached] at hr
          obtain ⟨c, _, rfl⟩ := List.mem_map.mp hr
          rfl
      · simp at hmem

/-- Witness for C9: the console handler built by a default call carries the
call's formatter. -/
theorem C9_witness :
    (⟨0, HandlerType.streamHandler,
        some ⟨"%(asctime)s - %(name)s - %(levelname)s - %(message)s", none⟩,
        some (LogLevel.int 10)⟩ : Handler) ∈ (⟨"w9", none, [], none⟩ : Logger).handlers ∨
      (⟨0, HandlerType.streamHandler,
          some ⟨"%(asctime)s - %(name)s - %(levelname)s - %(message)s", none⟩,
          some (LogLevel.int 10)⟩ : Handler).formatter =
        some (selectFormatter { log_name := NameArg.pystr "w9" }) :=
  C9_one_formatter { log_name := NameArg.pystr "w9" } ⟨"w9", none, [], none⟩ 0
    ⟨0, HandlerType.streamHandler,
      some ⟨"%(asctime)s - %(name)s - %(levelname)s - %(message)s", none⟩,
      some (LogLevel.int 10)⟩ (by decide)

/-- C10: an empty-string `log_file` behaves exactly as if no file were
configured: the whole call, the built handlers, and the selected formatter
coincide with the `None` case — both decisions test truthiness, not `None`. -/
theorem C10_empty_string_file (cfg : Config) (st : Logger) (fresh : Nat) :
    (log_factory { cfg with log_file := some "" } st fresh =
        log_factory { cfg with log_file := none } st fresh)
    ∧ (∀ c r f2, _get_handlers c (some "") r f2 = _get_handlers c none r f2)
    ∧ (selectFormatter { cfg with log_file := some "" } =
        selectFormatter { cfg with log_file := none }) :=
  ⟨rfl, fun _ _ _ => rfl, rfl⟩

end SimpleLogFactory
